import Mathlib

/-!
Shallow embedding of `src/hqm/circuits/flexiblecircuit.py` (class
`FlexibleCircuit`): the constructor `__init__`, the private parameter
counter `__calculate_weights`, and the static circuit builder
`circ`/`qnode`.

Gate tokens are plain strings in the source (e.g. "H", "RY", "CNOT-2");
the only token inspection the source performs is the Python substring
test `'R' in el`.  The configuration is a Python dict; the source reads
at most the keys "F", "U", "V" and "M", so the embedding models the dict
as a record of four optional fields.  Block values are modelled as
rectangular grids (lists of rows), matching the 2-D numpy arrays whose
`.shape` the `qnode` body reads.  Numeric inputs and weights are
modelled as rationals.
-/

namespace HQM

/-- The dict keys read anywhere in `flexiblecircuit.py`. -/
inductive ConfigKey where
  | F | U | V | M
  deriving DecidableEq, Repr

/-- Python exceptions the embedded code can raise:
`nameError` for an unbound name (line 73 evaluates the names `n_qubits`
and `n_layers`, neither of which is bound in `__init__`'s scope);
`typeErrorRaiseStr` for a `raise` applied to a plain string (lines
75-78), which in Python 3 is itself a `TypeError` because exceptions
must derive from `BaseException`; `keyError k` for a missing dict key;
`indexError` for an out-of-range sequence index. -/
inductive PyErr where
  | nameError
  | typeErrorRaiseStr
  | keyError (k : ConfigKey)
  | indexError
  deriving DecidableEq, Repr

/-- The configuration dict restricted to the keys the source reads.
`none` models an absent key. -/
structure Config where
  F : Option (List (List String)) := none
  U : Option (List (List String)) := none
  V : Option (List (List String)) := none
  M : Option (List Bool) := none

/-- The Python membership test `'R' in el` used by `__calculate_weights`
(lines 105 and 109) to recognise rotation gates: for the one-character
pattern `'R'` it is membership of the character in the token. -/
def hasR (tok : String) : Bool := tok.data.contains 'R'

/-- `FlexibleCircuit.__calculate_weights` (lines 88-112): starts from
`ct = 0`, iterates `chain(*config['V'])` and then `chain(*config['U'])`,
adding one for each token `el` with `'R' in el`.  The dict lookups
`config['V']` and `config['U']` raise `KeyError` when the key is
absent; the `'V'` lookup is evaluated first. -/
def calculateWeights (config : Config) : Except PyErr Nat := do
  let V ← match config.V with
    | none => throw (PyErr.keyError ConfigKey.V)
    | some v => pure v
  let ct := (V.flatten).countP hasR
  let U ← match config.U with
    | none => throw (PyErr.keyError ConfigKey.U)
    | some u => pure u
  pure (ct + (U.flatten).countP hasR)

/-- Quantum operations the `qnode` body can emit.
`angleRot i x` is one rotation of `qml.AngleEmbedding` on wire `i` with
angle `x`; `amplitudeEmbed xs nrm` is the single
`qml.AmplitudeEmbedding(features=xs, ..., normalize=nrm)` state
preparation.  No other operation occurs in the body: the nested loops
over the `V` and `U` grids (lines 162-164 and 168-170) have `pass`
bodies. -/
inductive Op where
  | angleRot (wire : Nat) (angle : ℚ)
  | amplitudeEmbed (features : List ℚ) (normalize : Bool)
  deriving DecidableEq, Repr

/-- A measurement request: `qml.expval(qml.PauliZ(wires=i))`. -/
inductive Meas where
  | expvalZ (wire : Nat)
  deriving DecidableEq, Repr

/-- The E component (lines 155-157): two independent `if` statements on
the encoding string.  `'angle'` emits one rotation per wire in
`range(n_qubits)` with angle `inputs[i]`; `'amplitude'` emits the single
normalizing state preparation carrying the raw `inputs`.  Any other
encoding string emits nothing here. -/
def embedOps (encoding : String) (inputs : List ℚ) (n : Nat) : List Op :=
  (if encoding = ("angle") then
    (List.range n).map (fun i => Op.angleRot i (inputs.getD i 0))
  else []) ++
  (if encoding = ("amplitude") then [Op.amplitudeEmbed inputs true] else [])

/-- One pass of the M-component loop body over the remaining indices:
`if config['M'][i]: measurements.append(qml.expval(qml.PauliZ(wires=i)))`,
with `M[i]` raising `IndexError` when `i` is out of range. -/
def measGo (M : List Bool) (acc : List Meas) : List Nat → Except PyErr (List Meas)
  | [] => Except.ok acc
  | i :: rest =>
    match M.get? i with
    | none => throw PyErr.indexError
    | some b => measGo M (if b then acc ++ [Meas.expvalZ i] else acc) rest

/-- The M component (lines 172-176): `for i in range(n_qubits)`, looking
up `config['M']` inside the loop body; when the key is absent the first
iteration raises `KeyError` (a zero-iteration loop raises nothing). -/
def measStep (M? : Option (List Bool)) (n : Nat) : Except PyErr (List Meas) :=
  match M? with
  | none => if n = 0 then Except.ok [] else throw (PyErr.keyError ConfigKey.M)
  | some M => measGo M [] (List.range n)

/-- The trace of one `qnode` call: the operations emitted before the
call returns or raises, and the outcome (the returned measurement list,
or the exception). -/
structure QnodeTrace where
  ops : List Op
  result : Except PyErr (List Meas)

/-- `FlexibleCircuit.circ`'s inner `qnode` (lines 137-178), as a trace
of emitted operations plus outcome.  In order: the E component
(lines 155-157); `V = config['V']` (line 160, `KeyError` when absent);
the nested `pass` loops over `V`'s indices (lines 162-164), which emit
nothing; `U = config['U']` (line 167, `KeyError` when absent); the
nested `pass` loops over `U`'s indices (lines 168-170), which emit
nothing; the M component (lines 172-176).  The `weights` argument is
never referenced by the body. -/
def qnode (n : Nat) (config : Config) (encoding : String)
    (inputs _weights : List ℚ) : QnodeTrace :=
  let e := embedOps encoding inputs n
  match config.V with
  | none => ⟨e, throw (PyErr.keyError ConfigKey.V)⟩
  | some _V =>
    match config.U with
    | none => ⟨e, throw (PyErr.keyError ConfigKey.U)⟩
    | some _U => ⟨e, measStep config.M n⟩

/-- The state a completed construction would produce: the cached qubit
count (line 82, `np.shape(config['U'])[0]`) and the declared weight
count (line 85). -/
structure FlexState where
  n_qubits : Nat
  weightCount : Nat

/-- `FlexibleCircuit.__init__` (lines 16-86), line by line.  Line 73
calls `super().__init__(n_qubits=n_qubits, n_layers=n_layers, dev=dev)`;
Python evaluates the keyword arguments left to right and the name
`n_qubits` is bound nowhere in the enclosing scopes (it is neither a
parameter of `__init__` nor a module global), so the call raises
`NameError` unconditionally.  The remaining body (the encoding check on
line 75, the three key checks on lines 76-78 — each a `raise` of a
plain string, itself a `TypeError` in Python 3 — and lines 80-86) is
embedded after it but is unreachable. -/
def flexibleCircuitInit (config : Config) (encoding : String) :
    Except PyErr FlexState := do
  throw PyErr.nameError
  if encoding ≠ ("angle") ∧ encoding ≠ ("amplitude") then
    throw PyErr.typeErrorRaiseStr
  if config.F.isNone then throw PyErr.typeErrorRaiseStr
  if config.U.isNone then throw PyErr.typeErrorRaiseStr
  if config.M.isNone then throw PyErr.typeErrorRaiseStr
  let U ← match config.U with
    | none => throw (PyErr.keyError ConfigKey.U)
    | some u => pure u
  let w ← calculateWeights config
  pure ⟨U.length, w⟩

/-! ### Concrete configurations used as evaluation points -/

/-- The documented example configuration from the class docstring
(lines 33-45): a 3-qubit circuit with keys `F`, `U`, `M` only (the
docstring's `2*[...]` lists are written out).  No key `V` is present. -/
def exampleConfig : Config where
  F := some [["H", "CNOT-2"], ["H", "CNOT-3"], ["H", "CNOT-1"]]
  U := some [["RY", "CNOT-2", "RY", "RY", "CNOT-2", "RY"],
             ["RY", "CNOT-3", "RY", "RY", "CNOT-3", "RY"],
             ["RY", "CNOT-1", "RY", "RY", "CNOT-1", "RY"]]
  M := some [true, true, true]

/-- The empty configuration dict: all keys absent. -/
def emptyConfig : Config := {}

/-- A configuration whose `F` rows have unequal lengths (2 and 1), with
agreeing row counts elsewhere. -/
def raggedConfig : Config where
  F := some [["H", "CNOT-2"], ["H"]]
  U := some [["RY"], ["RY"]]
  M := some [true, true]

/-- A configuration whose `F` block has an entangling token on qubit 0
that targets qubit 0 (its own row). -/
def selfTargetConfig : Config where
  F := some [["CNOT-0", "H"], ["H", "H"]]
  U := some [["RY"], ["RY"]]
  M := some [true, true]

/-- A configuration carrying all four keys the code reads, including the
undocumented `V`; the only shape with which `qnode` can run to the
measurement step. -/
def fullConfig : Config where
  F := some [["H"], ["H"]]
  U := some [["RY"], ["RY"]]
  V := some [["H"], ["H"]]
  M := some [true, true]

/-! ### Predicates taken from the claims' wording (never read by the
source, which performs no shape or target validation) -/

/-- The row counts of the three blocks disagree. -/
def rowCountsDisagree (F U : List (List String)) (M : List Bool) : Prop :=
  ¬(F.length = U.length ∧ U.length = M.length)

/-- Some two rows of a block have different column counts. -/
def nonRectangular (B : List (List String)) : Prop :=
  ∃ r ∈ B, ∃ s ∈ B, r.length ≠ s.length

/-- Decimal reading of a non-empty digit string. -/
def charsToNat? (cs : List Char) : Option Nat :=
  if cs ≠ [] ∧ cs.all (fun c => c.isDigit) then
    some (cs.foldl (fun a c => a * 10 + (c.toNat - 48)) 0)
  else none

/-- Reading of the docstring's entangling tokens: a token of the form
`CNOT-t` is an entangling operation whose target qubit is `t`. -/
def entanglingTarget (tok : String) : Option Nat :=
  match tok.data with
  | 'C' :: 'N' :: 'O' :: 'T' :: '-' :: rest => charsToNat? rest
  | _ => none

/-- Some token of the grid is an entangling token whose target equals
its own row index or lies outside `[0, nQubits)`. -/
def hasBadEntanglingTarget (B : List (List String)) (nQubits : Nat) : Prop :=
  ∃ row ∈ List.range B.length, ∃ tok ∈ B.getD row [],
    ∃ t ∈ (entanglingTarget tok).toList, t = row ∨ nQubits ≤ t

/-! ### Claims about construction (`__init__`) -/

/-- C9: for every configuration dict and encoding string (and any
device, which does not enter the control flow), constructing a
`FlexibleCircuit` raises `NameError` at the `super().__init__` call of
line 73 — the names `n_qubits` and `n_layers` are unbound there — so no
construction ever completes and none of the validation checks on lines
75-78 is reachable. -/
theorem init_always_nameError (config : Config) (encoding : String) :
    flexibleCircuitInit config encoding = Except.error PyErr.nameError := rfl

/-- C4: a configuration missing the `F`, `U` and `M` keys does not fail
with a `MissingBlockError`: construction raises the unconditional
`NameError` of line 73 before the key checks of lines 76-78 run (and
those checks `raise` plain strings, which in Python 3 is a `TypeError`,
so no `MissingBlockError` exists anywhere in the code). -/
theorem init_missing_blocks_nameError :
    flexibleCircuitInit emptyConfig ("angle") = Except.error PyErr.nameError := rfl

/-- C7: an unrecognized encoding string does not fail with an
`InvalidEncodingError`: construction raises the `NameError` of line 73
before the encoding check of line 75 runs, and it raises the very same
`NameError` for the recognized encoding `angle` — the failure is not on
account of the encoding, and no `InvalidEncodingError` exists in the
code (line 75 would `raise` a plain string, a `TypeError` in Python 3). -/
theorem init_bad_encoding_nameError :
    flexibleCircuitInit exampleConfig ("banana") = Except.error PyErr.nameError ∧
    flexibleCircuitInit exampleConfig ("angle") = Except.error PyErr.nameError :=
  ⟨rfl, rfl⟩

/-- C5 counterexample: a configuration whose `F` rows have unequal
lengths fails with `NameError`, the same exception as a well-formed
configuration — not with a `DimensionMismatchError`, which exists
nowhere in the code (`PyErr` enumerates every exception the embedded
code can raise). -/
theorem init_ragged_nameError :
    flexibleCircuitInit raggedConfig ("angle") = Except.error PyErr.nameError ∧
    flexibleCircuitInit exampleConfig ("angle") = Except.error PyErr.nameError :=
  ⟨rfl, rfl⟩

/-- C5 amended: for every configuration whose three blocks are present
with disagreeing row counts, or with a non-rectangular block,
construction still fails — but with the unconditional `NameError` of
line 73, never with a `DimensionMismatchError`: the code contains no
dimension validation at all. -/
theorem init_dimension_mismatch_amended (config : Config) (encoding : String)
    (F U : List (List String)) (M : List Bool)
    (_hF : config.F = some F) (_hU : config.U = some U) (_hM : config.M = some M)
    (_h : rowCountsDisagree F U M ∨ nonRectangular F ∨ nonRectangular U) :
    flexibleCircuitInit config encoding = Except.error PyErr.nameError := rfl

/-- Witness for the amended C5 at the concrete ragged configuration. -/
theorem init_dimension_mismatch_amended_witness :
    flexibleCircuitInit raggedConfig ("angle") = Except.error PyErr.nameError :=
  init_dimension_mismatch_amended raggedConfig ("angle")
    [["H", "CNOT-2"], ["H"]] [["RY"], ["RY"]] [true, true]
    rfl rfl rfl (Or.inr (Or.inl (by unfold nonRectangular; decide)))

/-- C6 counterexample: a configuration whose `F` block has an entangling
token `CNOT-0` on qubit 0 (target = its own row) fails with `NameError`,
the same exception as a configuration with no entangling token at all —
not with an `InvalidTargetError`, which exists nowhere in the code. -/
theorem init_self_target_nameError :
    flexibleCircuitInit selfTargetConfig ("angle") = Except.error PyErr.nameError ∧
    flexibleCircuitInit fullConfig ("angle") = Except.error PyErr.nameError :=
  ⟨rfl, rfl⟩

/-- C6 amended: for every configuration containing an entangling token
whose target equals its own row index or is out of `[0, qubitCount)`
(with `qubitCount` the `U` row count the code itself uses), construction
still fails — but with the unconditional `NameError` of line 73, never
with an `InvalidTargetError`: the code never parses or checks entangling
targets. -/
theorem init_invalid_target_amended (config : Config) (encoding : String)
    (F U : List (List String))
    (_hF : config.F = some F) (_hU : config.U = some U)
    (_h : hasBadEntanglingTarget F U.length ∨ hasBadEntanglingTarget U U.length) :
    flexibleCircuitInit config encoding = Except.error PyErr.nameError := rfl

/-- Witness for the amended C6 at the concrete self-targeting
configuration. -/
theorem init_invalid_target_amended_witness :
    flexibleCircuitInit selfTargetConfig ("angle") = Except.error PyErr.nameError :=
  init_invalid_target_amended selfTargetConfig ("angle")
    [["CNOT-0", "H"], ["H", "H"]] [["RY"], ["RY"]]
    rfl rfl (Or.inl (by unfold hasBadEntanglingTarget; decide))

/-! ### Claims about the circuit body (`circ`/`qnode`) and the
parameter counter -/

/-- Whatever the configuration, encoding, inputs and weights, the
operations a `qnode` call emits are exactly the embedding operations:
the `V` and `U` loops have `pass` bodies and contribute nothing. -/
theorem qnode_ops_eq_embed (n : Nat) (config : Config) (enc : String)
    (inputs weights : List ℚ) :
    (qnode n config enc inputs weights).ops = embedOps enc inputs n := by
  obtain ⟨F, U, V, M⟩ := config
  cases V <;> cases U <;> rfl

/-- The input vector of the docstring's 3-qubit example. -/
def exampleInputs : List ℚ := [1, 2, 3]

/-- A weight vector of the length the docstring example implies (12
rotation tokens in its `U` block). -/
def exampleWeights : List ℚ := List.replicate 12 0

/-- C1 (refuted): the circuit function never emits any fixed-block or
trainable-block operation — for every configuration the emitted
sequence is the embedding alone, because the block loops (which read
`config['V']` and `config['U']`, iterate row-major, and have `pass`
bodies) emit nothing; and on the documented example configuration
(keys `F`, `U`, `M`) the call does not even reach the blocks: it raises
`KeyError` on the unvalidated key `'V'`. -/
theorem qnode_emits_no_block_ops :
    (∀ (n : Nat) (config : Config) (enc : String) (inputs weights : List ℚ),
      (qnode n config enc inputs weights).ops = embedOps enc inputs n) ∧
    (qnode 3 exampleConfig ("angle") exampleInputs exampleWeights).result =
      Except.error (PyErr.keyError ConfigKey.V) := by
  refine ⟨?_, rfl⟩
  intro n config enc inputs weights
  obtain ⟨F, U, V, M⟩ := config
  cases V <;> cases U <;> rfl

/-- The parameter count the spec's words prescribe (§4.2): traverse
`fixedBlock` (`F`) then `trainableBlock` (`U`) and count one per
rotation token; written here with the same rotation test the code uses.
Counting is traversal-order independent, so the flattened count equals
the column-major count. -/
def specCountParameters (F U : List (List String)) : Nat :=
  (F.flatten).countP hasR + (U.flatten).countP hasR

/-- C2 (refuted): on the documented example configuration the
spec-prescribed count over `F` and `U` is 12, but the code's
`__calculate_weights` raises `KeyError` on the unvalidated key `'V'`
(it iterates `config['V']`, not `config['F']`) and never returns a
count. -/
theorem calculate_weights_keyErrorV :
    specCountParameters (exampleConfig.F.getD []) (exampleConfig.U.getD []) = 12 ∧
    calculateWeights exampleConfig = Except.error (PyErr.keyError ConfigKey.V) := by
  refine ⟨?_, rfl⟩
  decide

/-- C10: for every configuration carrying exactly the validated keys
`F`, `U`, `M` (and no `V`), the parameter counter raises `KeyError` on
`'V'` before counting any token, and the circuit function raises
`KeyError` on `'V'` after the embedding step, having emitted no block
operation and no measurement. -/
theorem keyErrorV_on_validated_keys (F U : List (List String)) (M : List Bool)
    (n : Nat) (enc : String) (inputs weights : List ℚ) :
    calculateWeights ⟨some F, some U, none, some M⟩ =
      Except.error (PyErr.keyError ConfigKey.V) ∧
    (qnode n ⟨some F, some U, none, some M⟩ enc inputs weights).result =
      Except.error (PyErr.keyError ConfigKey.V) ∧
    (qnode n ⟨some F, some U, none, some M⟩ enc inputs weights).ops =
      embedOps enc inputs n :=
  ⟨rfl, rfl, rfl⟩

/-- `getD` of a mapped range picks out the function value, below the
bound. -/
theorem getD_map_range (f : Nat → Op) (n i : Nat) (d : Op) (h : i < n) :
    ((List.range n).map f).getD i d = f i := by
  rw [List.getD_eq_getElem?_getD, List.getElem?_map, List.getElem?_range h]
  rfl

/-- C8: the embedding step runs first and is determined by the encoding
alone: with `angle` the trace is exactly one rotation per qubit `i`
with angle `inputs[i]` (and nothing else, the block loops emitting
nothing); with `amplitude` it is the single normalizing state
preparation of the raw `inputs`; and the whole call never touches the
trainable weight vector, which the body does not reference. -/
theorem qnode_embedding (n : Nat) (config : Config) (enc : String)
    (inputs weights : List ℚ) :
    ((qnode n config enc inputs weights).ops = embedOps enc inputs n) ∧
    (enc = ("angle") → inputs.length = n →
      (qnode n config enc inputs weights).ops.length = n ∧
      ∀ i, i < n →
        (qnode n config enc inputs weights).ops.getD i (Op.amplitudeEmbed [] false) =
          Op.angleRot i (inputs.getD i 0)) ∧
    (enc = ("amplitude") →
      (qnode n config enc inputs weights).ops = [Op.amplitudeEmbed inputs true]) ∧
    (∀ weights2, qnode n config enc inputs weights2 = qnode n config enc inputs weights) := by
  have hops := qnode_ops_eq_embed n config enc inputs weights
  refine ⟨hops, ?_, ?_, fun _ => rfl⟩
  · intro ha _hlen
    subst ha
    have he : embedOps ("angle") inputs n =
        (List.range n).map (fun i => Op.angleRot i (inputs.getD i 0)) := by
      simp [embedOps]
    rw [hops, he]
    exact ⟨by simp, fun i hi => getD_map_range _ n i _ hi⟩
  · intro ha
    subst ha
    rw [hops]
    simp [embedOps]

/-- Witness for C8 at a 2-qubit configuration: the second `angle`
rotation is on wire 1 with the second input, and the `amplitude` trace
is the single state preparation. -/
theorem qnode_embedding_witness :
    (qnode 2 fullConfig ("angle") [(5 : ℚ), 7] []).ops.getD 1
        (Op.amplitudeEmbed [] false) = Op.angleRot 1 7 ∧
    (qnode 2 fullConfig ("amplitude") [(5 : ℚ), 7] []).ops =
      [Op.amplitudeEmbed [(5 : ℚ), 7] true] :=
  ⟨((qnode_embedding 2 fullConfig ("angle") [(5 : ℚ), 7] []).2.1 rfl rfl).2 1
      (by decide),
   (qnode_embedding 2 fullConfig ("amplitude") [(5 : ℚ), 7] []).2.2.1 rfl⟩

/-- The M-component loop over in-range indices succeeds and appends one
`PauliZ` expectation per index whose mask bit is true, in the order the
index list supplies. -/
theorem measGo_ok (M : List Bool) (idxs : List Nat) (acc : List Meas)
    (h : ∀ i ∈ idxs, i < M.length) :
    measGo M acc idxs =
      Except.ok (acc ++ (idxs.filter (fun i => M.getD i false)).map Meas.expvalZ) := by
  induction idxs generalizing acc with
  | nil => simp [measGo]
  | cons i rest ih =>
    have hi : i < M.length := h i (List.mem_cons_self i rest)
    have hget : M.get? i = some (M.getD i false) := by
      rw [List.getD_eq_getElem?_getD]
      rcases hg : M[i]? with _ | b
      · rw [List.getElem?_eq_none_iff] at hg
        omega
      · rw [List.get?_eq_getElem?, hg]
        rfl
    rw [measGo, hget]
    have hrest : ∀ j ∈ rest, j < M.length :=
      fun j hj => h j (List.mem_cons_of_mem i hj)
    rw [List.filter_cons]
    cases hb : M.getD i false with
    | true => simp [hb, ih _ hrest]
    | false => simp [hb, ih _ hrest]

/-- The length of the mask-filtered index range is the number of true
mask bits among the first `n`. -/
theorem filter_range_length_count (M : List Bool) (n : Nat) (h : n ≤ M.length) :
    ((List.range n).filter (fun i => M.getD i false)).length = (M.take n).count true := by
  induction n with
  | zero => simp
  | succ k ih =>
    have hk : k < M.length := h
    have hget : M[k]? = some (M.getD k false) := by
      rw [List.getD_eq_getElem?_getD]
      rcases hg : M[k]? with _ | b
      · rw [List.getElem?_eq_none_iff] at hg
        omega
      · rfl
    rw [List.range_succ, List.filter_append, List.length_append, ih (Nat.le_of_succ_le h),
      List.take_succ, List.count_append, hget]
    have hfil : (List.filter (fun i => M.getD i false) [k]).length =
        List.count true [M.getD k false] := by
      rw [List.getD_eq_getElem?_getD]
      cases hb : M[k]?.getD false <;> simp [List.filter_cons, hb]
    rw [show (some (M.getD k false)).toList = [M.getD k false] from rfl, hfil]

/-- C3: the measurement step, run with one mask bit per qubit, returns
one `PauliZ` expectation request per qubit index whose mask bit is
true, in strictly ascending index order (hence no index twice), with an
index requested iff its mask bit is true, and with as many results as
true mask entries; and whenever the circuit function reaches the
measurement step (all of `V`, `U`, `M` present) its outcome is exactly
this step's. -/
theorem measurement_step_mask (M : List Bool) (n : Nat) (h : n = M.length) :
    measStep (some M) n =
      Except.ok (((List.range n).filter (fun i => M.getD i false)).map Meas.expvalZ) ∧
    List.Pairwise (· < ·) ((List.range n).filter (fun i => M.getD i false)) ∧
    (∀ i, i ∈ (List.range n).filter (fun i => M.getD i false) ↔
      i < n ∧ M.getD i false = true) ∧
    ((List.range n).filter (fun i => M.getD i false)).length = M.count true ∧
    (∀ (Fo : Option (List (List String))) (V U : List (List String)) (enc : String)
      (inputs weights : List ℚ),
      (qnode n ⟨Fo, some U, some V, some M⟩ enc inputs weights).result =
        measStep (some M) n) := by
  subst h
  refine ⟨?_, (List.pairwise_lt_range M.length).filter _, ?_, ?_, fun _ _ _ _ _ _ => rfl⟩
  · show measGo M [] (List.range M.length) = _
    rw [measGo_ok M (List.range M.length) []
      (fun i hi => List.mem_range.mp hi)]
    simp
  · intro i
    simp [List.mem_filter, List.mem_range]
  · rw [filter_range_length_count M M.length (Nat.le_refl _), List.take_length]

/-- Witness for C3 at the spec's example mask `[true, false, true]`:
exactly the two requests for qubit 0 then qubit 2. -/
theorem measurement_step_mask_witness :
    measStep (some [true, false, true]) 3 =
      Except.ok [Meas.expvalZ 0, Meas.expvalZ 2] := by
  rw [(measurement_step_mask [true, false, true] 3 rfl).1]
  rfl

end HQM
